import Mathlib

/-
Verification of the Matrix_4x4 library (src/main.js): a shallow embedding
of its static functions over rational-valued buffers, together with
theorems settling the frozen claims about the library.

Modelling conventions, stated once:
  * A Float32Array buffer is a List of rationals (Mat).  Float rounding is
    abstracted away; every structural fact (indices, guards, composition
    order, aliasing) is embedded exactly as written in src/main.js.
  * Math.sin and Math.cos appear only through the degree argument: a pair
    of abstract functions s c : Rat -> Rat is passed where the source
    computes Math.sin(Math.PI * d / 180) and Math.cos(Math.PI * d / 180)
    for a degree value d.  No theorem below depends on trigonometric
    identities, so they hold for every interpretation of s and c.
  * multiply is embedded with an explicit store of buffers plus the local
    rest-parameter array of references, because the source assigns the
    running product buffer into the argument array (matrix[n + 1] = mat)
    while also writing into that same buffer through mat[...] = ...; the
    store makes that aliasing, and the absence of writes to caller
    buffers, provable rather than assumed.
  * A thrown exception is an Except.error value of type JsError.
-/

namespace Matrix4x4

/-- A matrix buffer: the contents of one Float32Array (or plain array)
of the source, read with getD so that an out-of-range index yields the
default 0 (all indices used by the claims are in range). -/
abbrev Mat := List ℚ

/-- The exceptions the source can throw.  invalidVolume is the
Error with message "The visibility area is zero", invalidDistance the
Error with message "Distance to near or far point is less than zero",
and typeError is the TypeError produced when multiply evaluates
new console.error(...) — console.error is not a constructor, so the
intended Error with message "Invalid number of arguments passed" is never
constructed. -/
inductive JsError where
  | invalidVolume
  | invalidDistance
  | typeError
deriving DecidableEq

/-- Equality of thrown-or-returned results is decidable (instance given
here because the library ships none for Except). -/
instance {e a : Type} [DecidableEq e] [DecidableEq a] : DecidableEq (Except e a)
  | .error x, .error y =>
      if h : x = y then .isTrue (by rw [h]) else .isFalse (by simp [h])
  | .error _, .ok _ => .isFalse (by simp)
  | .ok _, .error _ => .isFalse (by simp)
  | .ok x, .ok y =>
      if h : x = y then .isTrue (by rw [h]) else .isFalse (by simp [h])

/-- setIdentity (src/main.js lines 8-14): the identity matrix. -/
def setIdentity : Mat :=
  [1, 0, 0, 0,
   0, 1, 0, 0,
   0, 0, 1, 0,
   0, 0, 0, 1]

/-- setOrtogonalProjection (src/main.js lines 26-37).  The JS defaults are
(-1, 1, 1, -1, 0, 1); the embedding takes all six arguments explicitly.
The guard throws when left == right, top == bottom or near == far; the
returned buffer is transcribed verbatim, translation terms included
(the source multiplies -(right+left), -(top+bottom), -(far+near) by the
extent, it does not divide by it). -/
def setOrtogonalProjection (left right top bottom near far : ℚ) : Except JsError Mat :=
  if left = right ∨ top = bottom ∨ near = far then
    .error .invalidVolume
  else
    let width := right - left
    let height := top - bottom
    let depth := far - near
    .ok [2 / width, 0, 0, 0,
         0, 2 / height, 0, 0,
         0, 0, -2 / depth, 0,
         -(right + left) * width, -(top + bottom) * height, -(far + near) * depth, 1]

/-- setPerspectiveProjection (src/main.js lines 47-60).  The JS default
for fov reads window.innerHeight; the embedding takes fov explicitly.
The source computes angle = PI * fov / 180 / 2 and then
ctgAngle = Math.cos(angle) / Math.sin(angle): with the degree convention
for s and c stated at the top, that is c (fov / 2) / s (fov / 2).
Guard order is exactly that of the source: the volume guard
(fov <= 0, near == far, aspect == 0) runs before the distance guard
(near <= 0, far <= 0). -/
def setPerspectiveProjection (s c : ℚ → ℚ) (fov aspect near far : ℚ) : Except JsError Mat :=
  if fov ≤ 0 ∨ near = far ∨ aspect = 0 then
    .error .invalidVolume
  else if near ≤ 0 ∨ far ≤ 0 then
    .error .invalidDistance
  else
    let ctgAngle := c (fov / 2) / s (fov / 2)
    let depthValue := 1 / (far - near)
    .ok [ctgAngle / aspect, 0, 0, 0,
         0, ctgAngle, 0, 0,
         0, 0, -(far + near) * depthValue, -1,
         0, 0, -2 * near * far * depthValue, 0]

/-- setTranslate (src/main.js lines 108-114). -/
def setTranslate (x y z : ℚ) : Mat :=
  [1, 0, 0, 0,
   0, 1, 0, 0,
   0, 0, 1, 0,
   x, y, z, 1]

/-- setScale (src/main.js lines 168-174). -/
def setScale (x y z : ℚ) : Mat :=
  [x, 0, 0, 0,
   0, y, 0, 0,
   0, 0, z, 0,
   0, 0, 0, 1]

/-- Read element i of buffer b of the store. -/
def hRead (st : List Mat) (b i : Nat) : ℚ :=
  (st.getD b []).getD i 0

/-- Write value v to element i of buffer b of the store. -/
def hWrite (st : List Mat) (b i : Nat) (v : ℚ) : List Mat :=
  st.set b ((st.getD b []).set i v)

/-- One iteration of the inner loop of multiply (src/main.js lines
186-191): for loop counter value i, the four assignments to mat[i],
mat[i+4], mat[i+8] and mat[i+12], in source order.  ln and rn are the
buffers currently held in matrix[n] and matrix[n+1], mn the buffer of
mat.  Each assignment reads through the store produced by the previous
one, so when matrix[n] aliases mat (which the source makes happen from
the second outer iteration on) the reads see the writes already made,
exactly as the JS typed-array code behaves. -/
def mulRowStep (st : List Mat) (ln rn mn i : Nat) : List Mat :=
  let st1 := hWrite st mn i
    (hRead st ln i * hRead st rn 0 + hRead st ln (i + 4) * hRead st rn 1 +
     hRead st ln (i + 8) * hRead st rn 2 + hRead st ln (i + 12) * hRead st rn 3)
  let st2 := hWrite st1 mn (i + 4)
    (hRead st1 ln i * hRead st1 rn 4 + hRead st1 ln (i + 4) * hRead st1 rn 5 +
     hRead st1 ln (i + 8) * hRead st1 rn 6 + hRead st1 ln (i + 12) * hRead st1 rn 7)
  let st3 := hWrite st2 mn (i + 8)
    (hRead st2 ln i * hRead st2 rn 8 + hRead st2 ln (i + 4) * hRead st2 rn 9 +
     hRead st2 ln (i + 8) * hRead st2 rn 10 + hRead st2 ln (i + 12) * hRead st2 rn 11)
  hWrite st3 mn (i + 12)
    (hRead st3 ln i * hRead st3 rn 12 + hRead st3 ln (i + 4) * hRead st3 rn 13 +
     hRead st3 ln (i + 8) * hRead st3 rn 14 + hRead st3 ln (i + 12) * hRead st3 rn 15)

/-- The full inner loop of multiply for one value of n: i = 0, 1, 2, 3. -/
def pairStep (st : List Mat) (ln rn mn : Nat) : List Mat :=
  mulRowStep (mulRowStep (mulRowStep (mulRowStep st ln rn mn 0) ln rn mn 1) ln rn mn 2) ln rn mn 3

/-- The outer loop of multiply (src/main.js lines 185-193), with the
number of remaining iterations as fuel.  refs models the local
rest-parameter array matrix: slot n+1 is redirected to the mat buffer at
the end of each iteration (matrix[n + 1] = mat), which changes a local
reference and writes to no buffer. -/
def mulLoop (mn : Nat) : Nat → Nat → List Mat → List Nat → List Mat × List Nat
  | 0, _, st, refs => (st, refs)
  | fuel + 1, n, st, refs =>
      mulLoop mn fuel (n + 1)
        (pairStep st (refs.getD n 0) (refs.getD (n + 1) 0) mn)
        (refs.set (n + 1) mn)

/-- The complete execution of the body of multiply after the guard: the
store holds the caller buffers followed by the freshly allocated
zero-initialised mat buffer (new Float32Array(16)); the loop runs
matrix.length - 1 times.  Returns the final store and reference array. -/
def multiplyRun (inputs : List Mat) : List Mat × List Nat :=
  mulLoop inputs.length (inputs.length - 1) 0
    (inputs ++ [List.replicate 16 0]) (List.range inputs.length)

/-- The buffer multiply returns: the final contents of mat. -/
def multiplyRaw (inputs : List Mat) : Mat :=
  (multiplyRun inputs).1.getD inputs.length []

/-- ToNumber(String(buffer)) for one buffer, as JS coerces it inside the
relational comparison matrix < 2: a buffer joins to the comma-separated
list of its elements, so an empty buffer yields the empty string (number
0), a one-element buffer yields that element back, and a buffer with two
or more elements yields a string containing a comma, which is NaN
(modelled as none). -/
def matJoinNumeric : Mat → Option ℚ
  | [] => some 0
  | [v] => some v
  | _ => none

/-- ToNumber(String(matrix)) for the rest-parameter array: an empty array
joins to the empty string (number 0); a one-element array joins to the
join of its single buffer; two or more buffers are separated by commas,
giving NaN (none). -/
def arrayJoinNumeric : List Mat → Option ℚ
  | [] => some 0
  | [b] => matJoinNumeric b
  | _ => none

/-- The guard condition matrix < 2 of multiply (src/main.js line 182)
under the JS abstract relational comparison: the array is coerced to a
string and then to a number; a NaN coercion makes the comparison false. -/
def argsBelowTwo (inputs : List Mat) : Bool :=
  match arrayJoinNumeric inputs with
  | some q => decide (q < 2)
  | none => false

/-- multiply (src/main.js lines 181-195).  When the guard condition
holds, the source evaluates new console.error(...), which throws a
TypeError (console.error is not a constructor); otherwise the loop result
is returned. -/
def multiply (inputs : List Mat) : Except JsError Mat :=
  if argsBelowTwo inputs then .error .typeError else .ok (multiplyRaw inputs)

/-- The elementary X-axis rotation block of setRotate (src/main.js lines
130-134), for degree angle x; c x and s x stand for the cosine and sine
the source computes from x. -/
def rotXMat (s c : ℚ → ℚ) (x : ℚ) : Mat :=
  [1, 0, 0, 0,
   0, c x, s x, 0,
   0, -(s x), c x, 0,
   0, 0, 0, 1]

/-- The elementary Y-axis rotation block of setRotate (src/main.js lines
140-144). -/
def rotYMat (s c : ℚ → ℚ) (y : ℚ) : Mat :=
  [c y, 0, -(s y), 0,
   0, 1, 0, 0,
   s y, 0, c y, 0,
   0, 0, 0, 1]

/-- The elementary Z-axis rotation block of setRotate (src/main.js lines
151-155). -/
def rotZMat (s c : ℚ → ℚ) (z : ℚ) : Mat :=
  [c z, s z, 0, 0,
   -(s z), c z, 0, 0,
   0, 0, 1, 0,
   0, 0, 0, 1]

/-- setRotate (src/main.js lines 123-159).  mat starts as the
zero-initialised new Float32Array(16); a truthy angle (nonzero rational)
selects each axis block; the Y block is multiplied onto the running
result only when x was truthy, the Z block only when x or y was truthy,
each through the same multiply routine the class exports (its guard is
identically false on a two-buffer argument list, see multiply_pair, so
the loop result multiplyRaw is used directly). -/
def setRotate (s c : ℚ → ℚ) (x y z : ℚ) : Mat :=
  let mat : Mat := List.replicate 16 0
  let mat := if x ≠ 0 then rotXMat s c x else mat
  let mat := if y ≠ 0 then
      (if x ≠ 0 then multiplyRaw [mat, rotYMat s c y] else rotYMat s c y)
    else mat
  if z ≠ 0 then
    (if x ≠ 0 ∨ y ≠ 0 then multiplyRaw [mat, rotZMat s c z] else rotZMat s c z)
  else mat

/-- One entry of the standard column-major 4x4 product as the spec states
it: output entry at row index i of the column starting at j combines
left[i], left[i+4], left[i+8], left[i+12] weighted by the right operand
entries j, j+1, j+2, j+3. -/
def prodEntry (L R : Mat) (i j : Nat) : ℚ :=
  L.getD i 0 * R.getD j 0 + L.getD (i + 4) 0 * R.getD (j + 1) 0 +
  L.getD (i + 8) 0 * R.getD (j + 2) 0 + L.getD (i + 12) 0 * R.getD (j + 3) 0

/-- The standard pairwise 4x4 product in the stored column-major layout,
written from the index arithmetic the spec dictates. -/
def matProd (L R : Mat) : Mat :=
  [prodEntry L R 0 0, prodEntry L R 1 0, prodEntry L R 2 0, prodEntry L R 3 0,
   prodEntry L R 0 4, prodEntry L R 1 4, prodEntry L R 2 4, prodEntry L R 3 4,
   prodEntry L R 0 8, prodEntry L R 1 8, prodEntry L R 2 8, prodEntry L R 3 8,
   prodEntry L R 0 12, prodEntry L R 1 12, prodEntry L R 2 12, prodEntry L R 3 12]

/-- The left-to-right fold the spec describes for multiply: result = M0,
then result = result * M1, then result = result * M2, and so on. -/
def foldProduct : List Mat → Mat
  | [] => List.replicate 16 0
  | m :: rest => rest.foldl matProd m

/-- The x coordinate a matrix buffer assigns to the point (x, y, z, 1)
under the column-major convention of the spec (indices 0, 4, 8 scale,
index 12 translates). -/
def applyX (M : Mat) (x y z : ℚ) : ℚ :=
  M.getD 0 0 * x + M.getD 4 0 * y + M.getD 8 0 * z + M.getD 12 0

/-- The affine last-column invariant of the spec: entries 3, 7 and 11 are
0 and entry 15 is 1. -/
def lastCol (M : Mat) : Prop :=
  M.getD 3 0 = 0 ∧ M.getD 7 0 = 0 ∧ M.getD 11 0 = 0 ∧ M.getD 15 0 = 1

/-- Reading buffer 0 of a three-buffer store. -/
theorem hRead_zero (A B X : Mat) (i : Nat) : hRead [A, B, X] 0 i = A.getD i 0 := rfl

/-- Reading buffer 1 of a three-buffer store. -/
theorem hRead_one (A B X : Mat) (i : Nat) : hRead [A, B, X] 1 i = B.getD i 0 := rfl

/-- Writing buffer 2 of a three-buffer store. -/
theorem hWrite_two (A B X : Mat) (i : Nat) (v : ℚ) :
    hWrite [A, B, X] 2 i v = [A, B, X.set i v] := rfl

/-- The loop result on a two-buffer list is the standard product: the loop
runs once, reading buffers 0 and 1 and writing buffer 2, with no aliasing. -/
theorem multiplyRaw_pair (A B : Mat) : multiplyRaw [A, B] = matProd A B := by
  have h0 : multiplyRaw [A, B] = (multiplyRun [A, B]).1.getD 2 [] := rfl
  have hA : (multiplyRun [A, B]).1 = (mulLoop 2 1 0 [A, B, List.replicate 16 0] [0, 1]).1 := rfl
  have hB : mulLoop 2 1 0 [A, B, List.replicate 16 0] [0, 1] =
      (pairStep [A, B, List.replicate 16 0] 0 1 2, [0, 2]) := rfl
  rw [h0, hA, hB]
  simp only [pairStep, mulRowStep, hRead_zero, hRead_one, hWrite_two]
  rfl

/-- On a two-buffer argument list the guard of multiply is false (the
joined string contains a comma, hence coerces to NaN) and the loop runs
exactly once with no aliasing, so multiply computes the standard pairwise
product. -/
theorem multiply_pair (A B : Mat) : multiply [A, B] = .ok (matProd A B) := by
  have h : multiply [A, B] = .ok (multiplyRaw [A, B]) := rfl
  rw [h, multiplyRaw_pair]

/-- A buffer of length 16 is a sixteen-element list. -/
theorem exists_sixteen (M : Mat) (h : M.length = 16) :
    ∃ a0 a1 a2 a3 a4 a5 a6 a7 a8 a9 a10 a11 a12 a13 a14 a15 : ℚ,
      M = [a0, a1, a2, a3, a4, a5, a6, a7, a8, a9, a10, a11, a12, a13, a14, a15] := by
  rcases M with _ | ⟨a0, M⟩
  · simp at h
  rcases M with _ | ⟨a1, M⟩
  · simp at h
  rcases M with _ | ⟨a2, M⟩
  · simp at h
  rcases M with _ | ⟨a3, M⟩
  · simp at h
  rcases M with _ | ⟨a4, M⟩
  · simp at h
  rcases M with _ | ⟨a5, M⟩
  · simp at h
  rcases M with _ | ⟨a6, M⟩
  · simp at h
  rcases M with _ | ⟨a7, M⟩
  · simp at h
  rcases M with _ | ⟨a8, M⟩
  · simp at h
  rcases M with _ | ⟨a9, M⟩
  · simp at h
  rcases M with _ | ⟨a10, M⟩
  · simp at h
  rcases M with _ | ⟨a11, M⟩
  · simp at h
  rcases M with _ | ⟨a12, M⟩
  · simp at h
  rcases M with _ | ⟨a13, M⟩
  · simp at h
  rcases M with _ | ⟨a14, M⟩
  · simp at h
  rcases M with _ | ⟨a15, M⟩
  · simp at h
  rcases M with _ | ⟨a16, M⟩
  · exact ⟨a0, a1, a2, a3, a4, a5, a6, a7, a8, a9, a10, a11, a12, a13, a14, a15, rfl⟩
  · simp only [List.length_cons] at h
    omega

/-- The pairwise product on explicit sixteen-element lists, written out. -/
theorem matProd_explicit (a0 a1 a2 a3 a4 a5 a6 a7 a8 a9 a10 a11 a12 a13 a14 a15
    b0 b1 b2 b3 b4 b5 b6 b7 b8 b9 b10 b11 b12 b13 b14 b15 : ℚ) :
    matProd [a0, a1, a2, a3, a4, a5, a6, a7, a8, a9, a10, a11, a12, a13, a14, a15]
        [b0, b1, b2, b3, b4, b5, b6, b7, b8, b9, b10, b11, b12, b13, b14, b15] =
      [a0 * b0 + a4 * b1 + a8 * b2 + a12 * b3,
       a1 * b0 + a5 * b1 + a9 * b2 + a13 * b3,
       a2 * b0 + a6 * b1 + a10 * b2 + a14 * b3,
       a3 * b0 + a7 * b1 + a11 * b2 + a15 * b3,
       a0 * b4 + a4 * b5 + a8 * b6 + a12 * b7,
       a1 * b4 + a5 * b5 + a9 * b6 + a13 * b7,
       a2 * b4 + a6 * b5 + a10 * b6 + a14 * b7,
       a3 * b4 + a7 * b5 + a11 * b6 + a15 * b7,
       a0 * b8 + a4 * b9 + a8 * b10 + a12 * b11,
       a1 * b8 + a5 * b9 + a9 * b10 + a13 * b11,
       a2 * b8 + a6 * b9 + a10 * b10 + a14 * b11,
       a3 * b8 + a7 * b9 + a11 * b10 + a15 * b11,
       a0 * b12 + a4 * b13 + a8 * b14 + a12 * b15,
       a1 * b12 + a5 * b13 + a9 * b14 + a13 * b15,
       a2 * b12 + a6 * b13 + a10 * b14 + a14 * b15,
       a3 * b12 + a7 * b13 + a11 * b14 + a15 * b15] := rfl

/-- Multiplying a sixteen-element buffer by the identity on the right
returns the buffer itself. -/
theorem matProd_id_right (A : Mat) (h : A.length = 16) : matProd A setIdentity = A := by
  obtain ⟨a0, a1, a2, a3, a4, a5, a6, a7, a8, a9, a10, a11, a12, a13, a14, a15, rfl⟩ :=
    exists_sixteen A h
  show matProd _ [1, 0, 0, 0, 0, 1, 0, 0, 0, 0, 1, 0, 0, 0, 0, 1] = _
  rw [matProd_explicit]
  norm_num

/-- Multiplying a sixteen-element buffer by the identity on the left
returns the buffer itself. -/
theorem matProd_id_left (A : Mat) (h : A.length = 16) : matProd setIdentity A = A := by
  obtain ⟨a0, a1, a2, a3, a4, a5, a6, a7, a8, a9, a10, a11, a12, a13, a14, a15, rfl⟩ :=
    exists_sixteen A h
  show matProd [1, 0, 0, 0, 0, 1, 0, 0, 0, 0, 1, 0, 0, 0, 0, 1] _ = _
  rw [matProd_explicit]
  norm_num

/-- The pairwise product preserves the affine last column. -/
theorem lastCol_matProd {L R : Mat} (hL : lastCol L) (hR : lastCol R) :
    lastCol (matProd L R) := by
  obtain ⟨l3, l7, l11, l15⟩ := hL
  obtain ⟨r3, r7, r11, r15⟩ := hR
  refine ⟨?_, ?_, ?_, ?_⟩
  · show L.getD 3 0 * R.getD 0 0 + L.getD 7 0 * R.getD 1 0 +
        L.getD 11 0 * R.getD 2 0 + L.getD 15 0 * R.getD 3 0 = 0
    rw [l3, l7, l11, l15, r3]
    norm_num
  · show L.getD 3 0 * R.getD 4 0 + L.getD 7 0 * R.getD 5 0 +
        L.getD 11 0 * R.getD 6 0 + L.getD 15 0 * R.getD 7 0 = 0
    rw [l3, l7, l11, l15, r7]
    norm_num
  · show L.getD 3 0 * R.getD 8 0 + L.getD 7 0 * R.getD 9 0 +
        L.getD 11 0 * R.getD 10 0 + L.getD 15 0 * R.getD 11 0 = 0
    rw [l3, l7, l11, l15, r11]
    norm_num
  · show L.getD 3 0 * R.getD 12 0 + L.getD 7 0 * R.getD 13 0 +
        L.getD 11 0 * R.getD 14 0 + L.getD 15 0 * R.getD 15 0 = 1
    rw [l3, l7, l11, l15, r15]
    norm_num

/-- setRotate with at least one truthy angle computes the same buffer as
the product of the three axis factors in the order X, Y, Z, with the
identity in place of each skipped axis. -/
theorem setRotate_eq (s c : ℚ → ℚ) (x y z : ℚ) (h : x ≠ 0 ∨ y ≠ 0 ∨ z ≠ 0) :
    setRotate s c x y z =
      matProd (matProd (if x ≠ 0 then rotXMat s c x else setIdentity)
          (if y ≠ 0 then rotYMat s c y else setIdentity))
        (if z ≠ 0 then rotZMat s c z else setIdentity) := by
  rcases eq_or_ne x 0 with hx | hx <;> rcases eq_or_ne y 0 with hy | hy <;>
    rcases eq_or_ne z 0 with hz | hz
  · exact absurd h (by simp [hx, hy, hz])
  · simp only [setRotate, hx, hy, hz, ne_eq, not_true_eq_false, not_false_eq_true,
      ite_true, ite_false, or_self, or_false, false_or, if_true, if_false, multiplyRaw_pair]
    rw [matProd_id_right setIdentity rfl, matProd_id_left (rotZMat s c z) rfl]
  · simp only [setRotate, hx, hy, hz, ne_eq, not_true_eq_false, not_false_eq_true,
      ite_true, ite_false, or_self, or_false, false_or, or_true, true_or, if_true, if_false,
      multiplyRaw_pair]
    rw [matProd_id_left (rotYMat s c y) rfl, matProd_id_right (rotYMat s c y) rfl]
  · simp only [setRotate, hx, hy, hz, ne_eq, not_true_eq_false, not_false_eq_true,
      ite_true, ite_false, or_self, or_false, false_or, or_true, true_or, if_true, if_false,
      multiplyRaw_pair]
    rw [matProd_id_left (rotYMat s c y) rfl]
  · simp only [setRotate, hx, hy, hz, ne_eq, not_true_eq_false, not_false_eq_true,
      ite_true, ite_false, or_self, or_false, false_or, or_true, true_or, if_true, if_false,
      multiplyRaw_pair]
    rw [matProd_id_right (rotXMat s c x) rfl, matProd_id_right (rotXMat s c x) rfl]
  · simp only [setRotate, hx, hy, hz, ne_eq, not_true_eq_false, not_false_eq_true,
      ite_true, ite_false, or_self, or_false, false_or, or_true, true_or, if_true, if_false,
      multiplyRaw_pair]
    rw [matProd_id_right (rotXMat s c x) rfl]
  · simp only [setRotate, hx, hy, hz, ne_eq, not_true_eq_false, not_false_eq_true,
      ite_true, ite_false, or_self, or_false, false_or, or_true, true_or, if_true, if_false,
      multiplyRaw_pair]
    rw [matProd_id_right (matProd (rotXMat s c x) (rotYMat s c y)) rfl]
  · simp only [setRotate, hx, hy, hz, ne_eq, not_true_eq_false, not_false_eq_true,
      ite_true, ite_false, or_self, or_false, false_or, or_true, true_or, if_true, if_false,
      multiplyRaw_pair]

/-- The third argument of the failing multiply call below: a buffer whose
entries at indices 0 and 4 distinguish the aliased computation from the
true fold. -/
def probeMat : Mat := [2, 0, 0, 0, 1, 1, 0, 0, 0, 0, 1, 0, 0, 0, 0, 1]

/-- What the source actually returns for
multiply(setIdentity(), setIdentity(), probeMat): entry 4 is 2, because
the second loop iteration reads the left operand out of the very buffer
it is writing (the true fold has entry 4 equal to 1 there). -/
def aliasedChainResult : Mat := [2, 0, 0, 0, 2, 1, 0, 0, 0, 0, 1, 0, 0, 0, 0, 1]

/-- Staged evaluation of the loop of multiply on the three-buffer call:
after the first iteration the mat buffer holds the identity and the local
reference array points slot 1 at mat; the second iteration therefore
multiplies with its left operand aliased to its own output buffer, and
produces aliasedChainResult. -/
theorem multiplyRaw_chain_eval :
    multiplyRaw [setIdentity, setIdentity, probeMat] = aliasedChainResult := by
  have h0 : multiplyRaw [setIdentity, setIdentity, probeMat] =
      (multiplyRun [setIdentity, setIdentity, probeMat]).1.getD 3 [] := rfl
  have hA : (multiplyRun [setIdentity, setIdentity, probeMat]).1 =
      (mulLoop 3 2 0 [setIdentity, setIdentity, probeMat, List.replicate 16 0] [0, 1, 2]).1 := rfl
  have hB : mulLoop 3 2 0 [setIdentity, setIdentity, probeMat, List.replicate 16 0] [0, 1, 2] =
      mulLoop 3 1 1 (pairStep [setIdentity, setIdentity, probeMat, List.replicate 16 0] 0 1 3)
        [0, 3, 2] := rfl
  have p1 : pairStep [setIdentity, setIdentity, probeMat, List.replicate 16 0] 0 1 3 =
      [setIdentity, setIdentity, probeMat, setIdentity] := by with_unfolding_all decide
  have hC : mulLoop 3 1 1 [setIdentity, setIdentity, probeMat, setIdentity] [0, 3, 2] =
      (pairStep [setIdentity, setIdentity, probeMat, setIdentity] 3 2 3, [0, 3, 3]) := rfl
  have p2 : pairStep [setIdentity, setIdentity, probeMat, setIdentity] 3 2 3 =
      [setIdentity, setIdentity, probeMat, aliasedChainResult] := by with_unfolding_all decide
  rw [h0, hA, hB, p1, hC, p2]
  rfl

/-- A write addressed at the buffer appended behind the caller buffers
changes that buffer only. -/
theorem hWrite_append (xs : List Mat) (b : Mat) (i : Nat) (v : ℚ) :
    hWrite (xs ++ [b]) xs.length i v = xs ++ [b.set i v] := by
  induction xs with
  | nil => rfl
  | cons a t ih =>
      have ih2 : (t ++ [b]).set t.length (((t ++ [b]).getD t.length []).set i v) =
          t ++ [b.set i v] := ih
      simp only [List.cons_append, List.length_cons, hWrite, List.getD_cons_succ,
        List.set_cons_succ, ih2]

/-- The last buffer of a store. -/
def endBuf : List Mat → Mat
  | [] => []
  | [b] => b
  | _ :: rest => endBuf rest

/-- endBuf picks the appended buffer. -/
theorem endBuf_append (xs : List Mat) (c : Mat) : endBuf (xs ++ [c]) = c := by
  induction xs with
  | nil => rfl
  | cons a t ih =>
      rcases t with _ | ⟨a1, t1⟩
      · rfl
      · exact ih

/-- One outer-loop iteration started on a store of caller buffers plus
accumulator leaves the caller buffers untouched, whatever the reference
array holds. -/
theorem pairStep_append (xs : List Mat) (b : Mat) (ln rn : Nat) :
    pairStep (xs ++ [b]) ln rn xs.length =
      xs ++ [endBuf (pairStep (xs ++ [b]) ln rn xs.length)] := by
  simp only [pairStep, mulRowStep, hWrite_append, endBuf_append]

/-- The whole loop leaves the caller buffers untouched. -/
theorem mulLoop_append (xs : List Mat) :
    ∀ fuel n refs b, ∃ b2,
      (mulLoop xs.length fuel n (xs ++ [b]) refs).1 = xs ++ [b2] := by
  intro fuel
  induction fuel with
  | zero => exact fun n refs b => ⟨b, rfl⟩
  | succ k ih =>
      intro n refs b
      have e : mulLoop xs.length (k + 1) n (xs ++ [b]) refs =
          mulLoop xs.length k (n + 1)
            (pairStep (xs ++ [b]) (refs.getD n 0) (refs.getD (n + 1) 0) xs.length)
            (refs.set (n + 1) xs.length) := rfl
      rw [e, pairStep_append xs b (refs.getD n 0) (refs.getD (n + 1) 0)]
      exact ih (n + 1) (refs.set (n + 1) xs.length)
        (endBuf (pairStep (xs ++ [b]) (refs.getD n 0) (refs.getD (n + 1) 0) xs.length))

/-- C1.  The claim states that every call of multiply with two or more
matrices returns the left-to-right fold of the standard column-major
product.  That fails from the third matrix on: at the end of iteration n
the source points matrix[n+1] at the accumulator buffer mat, so in the
next iteration the left operand aliases the very buffer being written and
the reads see half-updated values.  Concretely, for the call
multiply(setIdentity(), setIdentity(), probeMat) the source returns
aliasedChainResult, whose entry 4 is 2, while the fold
(setIdentity times setIdentity) times probeMat equals probeMat, whose
entry 4 is 1. -/
theorem multiply_chain_aliasing_eval :
    multiply [setIdentity, setIdentity, probeMat] = .ok aliasedChainResult ∧
    foldProduct [setIdentity, setIdentity, probeMat] = probeMat ∧
    aliasedChainResult.getD 4 0 = 2 ∧ probeMat.getD 4 0 = 1 ∧
    aliasedChainResult ≠ probeMat := by
  refine ⟨?_, ?_, rfl, rfl, ?_⟩
  · have hg : multiply [setIdentity, setIdentity, probeMat] =
        .ok (multiplyRaw [setIdentity, setIdentity, probeMat]) := rfl
    rw [hg, multiplyRaw_chain_eval]
  · with_unfolding_all decide
  · with_unfolding_all decide

/-- C2.  The claim states that the orthographic matrix maps the clip
volume onto the canonical cube, sending x = left to -1 and x = right
to 1.  With left 0, right 2, top 1, bottom -1, near 0, far 1 the source
scales x by 1 (2 divided by the width 2) but translates by
-(right + left) * width = -4, so x = left lands on -4 and x = right on
-2: the translation terms multiply by the extent instead of dividing by
it. -/
theorem ortho_translation_formula_eval :
    Except.map (fun M => (M.getD 0 0, applyX M 0 0 0, applyX M 2 0 0))
        (setOrtogonalProjection 0 2 1 (-1) 0 1) = .ok (1, -4, -2) := by
  with_unfolding_all decide

/-- C3.  With at least one non-zero angle, setRotate returns exactly the
product, in the order X then Y then Z, of the axis factors with the
identity standing in for each skipped axis: the short-circuit that skips
zero angles preserves the net transform. -/
theorem rotate_composition (s c : ℚ → ℚ) (x y z : ℚ) (h : x ≠ 0 ∨ y ≠ 0 ∨ z ≠ 0) :
    setRotate s c x y z =
      matProd (matProd (if x ≠ 0 then rotXMat s c x else setIdentity)
          (if y ≠ 0 then rotYMat s c y else setIdentity))
        (if z ≠ 0 then rotZMat s c z else setIdentity) :=
  setRotate_eq s c x y z h

/-- Witness for C3 at angles 90, 0, 0. -/
theorem rotate_composition_witness :
    setRotate (fun q => q) (fun q => q) 90 0 0 =
      matProd (matProd (if (90 : ℚ) ≠ 0 then rotXMat (fun q => q) (fun q => q) 90
            else setIdentity)
          (if (0 : ℚ) ≠ 0 then rotYMat (fun q => q) (fun q => q) 0 else setIdentity))
        (if (0 : ℚ) ≠ 0 then rotZMat (fun q => q) (fun q => q) 0 else setIdentity) :=
  rotate_composition (fun q => q) (fun q => q) 90 0 0 (Or.inl (by norm_num))

/-- C4.  With every angle zero (or omitted), no branch of setRotate runs
and the zero-initialised Float32Array(16) is returned as is: the all-zero
buffer, not the identity. -/
theorem rotate_zero_all_zero (s c : ℚ → ℚ) :
    setRotate s c 0 0 0 = List.replicate 16 0 ∧ setRotate s c 0 0 0 ≠ setIdentity := by
  have h : setRotate s c 0 0 0 = List.replicate 16 0 := rfl
  refine ⟨h, ?_⟩
  rw [h]
  with_unfolding_all decide

/-- Counterexample for C5: the claim includes the all-zero-angles rotate
among the matrices with affine last column, but that call returns the
all-zero buffer, whose entry 15 is 0, not 1. -/
theorem rotate_zero_breaks_affine :
    (setRotate (fun q => q) (fun q => q) 0 0 0).getD 15 0 = 0 ∧
    ¬ lastCol (setRotate (fun q => q) (fun q => q) 0 0 0) := by
  have h : setRotate (fun q => q) (fun q => q) 0 0 0 = List.replicate 16 0 := rfl
  constructor
  · rw [h]
    rfl
  · intro hc
    obtain ⟨_, _, _, h15⟩ := hc
    rw [h] at h15
    have h0 : ((List.replicate 16 (0 : ℚ)).getD 15 0) = 0 := rfl
    rw [h0] at h15
    exact absurd h15 (by norm_num)

/-- C5 as amended: translate, scale and identity always carry the affine
last column [0,0,0,1], and so does rotate whenever at least one angle is
non-zero; the all-zero-angles rotate is the one exception. -/
theorem affine_last_column (s c : ℚ → ℚ) (x y z tx ty tz sx sy sz : ℚ)
    (h : x ≠ 0 ∨ y ≠ 0 ∨ z ≠ 0) :
    lastCol (setRotate s c x y z) ∧ lastCol (setTranslate tx ty tz) ∧
    lastCol (setScale sx sy sz) ∧ lastCol setIdentity := by
  refine ⟨?_, ⟨rfl, rfl, rfl, rfl⟩, ⟨rfl, rfl, rfl, rfl⟩, ⟨rfl, rfl, rfl, rfl⟩⟩
  rw [setRotate_eq s c x y z h]
  have hX : lastCol (if x ≠ 0 then rotXMat s c x else setIdentity) := by
    split_ifs
    · exact ⟨rfl, rfl, rfl, rfl⟩
    · exact ⟨rfl, rfl, rfl, rfl⟩
  have hY : lastCol (if y ≠ 0 then rotYMat s c y else setIdentity) := by
    split_ifs
    · exact ⟨rfl, rfl, rfl, rfl⟩
    · exact ⟨rfl, rfl, rfl, rfl⟩
  have hZ : lastCol (if z ≠ 0 then rotZMat s c z else setIdentity) := by
    split_ifs
    · exact ⟨rfl, rfl, rfl, rfl⟩
    · exact ⟨rfl, rfl, rfl, rfl⟩
  exact lastCol_matProd (lastCol_matProd hX hY) hZ

/-- Witness for C5 at angles 30, 45, 60 and translate 1 2 3, scale 4 5 6. -/
theorem affine_last_column_witness :
    lastCol (setRotate (fun q => q) (fun q => q) 30 45 60) ∧
    lastCol (setTranslate 1 2 3) ∧ lastCol (setScale 4 5 6) ∧ lastCol setIdentity :=
  affine_last_column (fun q => q) (fun q => q) 30 45 60 1 2 3 4 5 6 (Or.inl (by norm_num))

/-- Counterexample for C6: with fov 0, aspect 1, near -1, far 10 the claim
asserts an InvalidDistanceError (near is non-positive), but the source
checks the volume conditions first and throws InvalidVolumeError. -/
theorem perspective_guard_order_counterexample :
    (-1 : ℚ) ≤ 0 ∧
    setPerspectiveProjection (fun q => q) (fun q => q) 0 1 (-1) 10 = .error .invalidVolume ∧
    setPerspectiveProjection (fun q => q) (fun q => q) 0 1 (-1) 10 ≠ .error .invalidDistance := by
  refine ⟨by norm_num, ?_, ?_⟩
  · with_unfolding_all decide
  · with_unfolding_all decide

/-- C6 as amended: the orthographic constructor throws InvalidVolumeError
exactly when left = right, top = bottom or near = far, and returns a
matrix otherwise; the perspective constructor throws InvalidVolumeError
exactly when fov is non-positive, near = far or aspect = 0, throws
InvalidDistanceError exactly when no volume condition holds and near or
far is non-positive, and returns a matrix exactly when no condition of
either guard holds. -/
theorem projection_error_contract (s c : ℚ → ℚ) (l r t b n f fov asp pn pf : ℚ) :
    (setOrtogonalProjection l r t b n f = .error .invalidVolume ↔
      (l = r ∨ t = b ∨ n = f)) ∧
    ((∃ M, setOrtogonalProjection l r t b n f = .ok M) ↔ ¬(l = r ∨ t = b ∨ n = f)) ∧
    (setPerspectiveProjection s c fov asp pn pf = .error .invalidVolume ↔
      (fov ≤ 0 ∨ pn = pf ∨ asp = 0)) ∧
    (setPerspectiveProjection s c fov asp pn pf = .error .invalidDistance ↔
      (¬(fov ≤ 0 ∨ pn = pf ∨ asp = 0) ∧ (pn ≤ 0 ∨ pf ≤ 0))) ∧
    ((∃ M, setPerspectiveProjection s c fov asp pn pf = .ok M) ↔
      (¬(fov ≤ 0 ∨ pn = pf ∨ asp = 0) ∧ ¬(pn ≤ 0 ∨ pf ≤ 0))) := by
  unfold setOrtogonalProjection setPerspectiveProjection
  by_cases h1 : l = r ∨ t = b ∨ n = f <;>
    by_cases h2 : fov ≤ 0 ∨ pn = pf ∨ asp = 0 <;>
      by_cases h3 : pn ≤ 0 ∨ pf ≤ 0 <;>
        simp [h1, h2, h3]

/-- C7.  The loop of multiply writes only into the freshly allocated
accumulator buffer; the assignment matrix[n+1] = mat changes a slot of
the local reference array, not a caller buffer.  So after the run the
first inputs.length buffers of the store still hold exactly the caller
matrices. -/
theorem multiply_preserves_inputs (inputs : List Mat) :
    (multiplyRun inputs).1.take inputs.length = inputs := by
  obtain ⟨b2, hb⟩ := mulLoop_append inputs (inputs.length - 1) 0
    (List.range inputs.length) (List.replicate 16 0)
  have e : (multiplyRun inputs).1 =
      (mulLoop inputs.length (inputs.length - 1) 0
        (inputs ++ [List.replicate 16 0]) (List.range inputs.length)).1 := rfl
  rw [e, hb]
  exact List.take_left inputs [b2]

/-- C8.  Multiplying a sixteen-element matrix by the identity on either
side returns the matrix itself. -/
theorem multiply_identity_law (M : Mat) (h : M.length = 16) :
    multiply [M, setIdentity] = .ok M ∧ multiply [setIdentity, M] = .ok M := by
  constructor
  · rw [multiply_pair, matProd_id_right M h]
  · rw [multiply_pair, matProd_id_left M h]

/-- Witness for C8 at the translation matrix with offsets 5, 6, 7. -/
theorem multiply_identity_law_witness :
    multiply [setTranslate 5 6 7, setIdentity] = .ok (setTranslate 5 6 7) ∧
    multiply [setIdentity, setTranslate 5 6 7] = .ok (setTranslate 5 6 7) :=
  multiply_identity_law (setTranslate 5 6 7) rfl

/-- Counterexample for C9: on the call with no matrices at all the rest
array is empty, it coerces to the empty string and then to the number 0,
and 0 < 2 is true — the comparison is not false for every call with
fewer than two matrices, and the call does throw (a TypeError from
new console.error, not the intended Error). -/
theorem multiply_empty_guard_true :
    ([] : List Mat).length < 2 ∧ argsBelowTwo [] = true ∧
    multiply [] = .error .typeError :=
  ⟨by decide, rfl, rfl⟩

/-- C9 as amended: for every call whose argument buffers are 16-element
matrices, the comparison matrix < 2 evaluates to true exactly on the
empty call (a non-empty join contains a comma and coerces to NaN), so the
guard never fires on one or more matrices; on the empty call it fires and
throws a TypeError, never an Error reading "Invalid number of arguments
passed". -/
theorem multiply_guard_amended (inputs : List Mat)
    (h : ∀ m ∈ inputs, m.length = 16) :
    argsBelowTwo inputs = inputs.isEmpty ∧ multiply [] = .error .typeError := by
  refine ⟨?_, rfl⟩
  rcases inputs with _ | ⟨b, rest⟩
  · rfl
  · rcases rest with _ | ⟨b2, rest2⟩
    · have hb : b.length = 16 := h b (by simp)
      obtain ⟨a0, a1, a2, a3, a4, a5, a6, a7, a8, a9, a10, a11, a12, a13, a14, a15, rfl⟩ :=
        exists_sixteen b hb
      rfl
    · rfl

/-- Witness for C9 as amended, on the one-matrix call with the identity. -/
theorem multiply_guard_amended_witness :
    argsBelowTwo [setIdentity] = List.isEmpty [setIdentity] ∧
    multiply [] = .error .typeError :=
  multiply_guard_amended [setIdentity] (by decide)

/-- C10.  On a single-matrix call the guard comparison is false (the join
of one sixteen-element buffer contains commas, hence NaN), the loop runs
zero times, and the zero-initialised accumulator is returned as is. -/
theorem multiply_single_returns_zero (M : Mat) (h : M.length = 16) :
    multiply [M] = .ok (List.replicate 16 0) := by
  obtain ⟨a0, a1, a2, a3, a4, a5, a6, a7, a8, a9, a10, a11, a12, a13, a14, a15, rfl⟩ :=
    exists_sixteen M h
  rfl

/-- Witness for C10 on the identity matrix. -/
theorem multiply_single_returns_zero_witness :
    multiply [setIdentity] = .ok (List.replicate 16 0) :=
  multiply_single_returns_zero setIdentity rfl

end Matrix4x4
